import Mathlib

/-!
# Verification of `server.js` (AI-Stream-Generator)

A shallow embedding of the single source file `server.js` of the
AI-Stream-Generator backend, together with theorems settling the spec's
claims about it.

Modelling conventions:
* JS strings are Lean `String`s (with `List Char` workhorse functions).
* JS numbers are modelled exactly over `ℚ`, with a single non-finite
  sentinel `JsNum.nan` standing for every non-finite double (`NaN`,
  `±Infinity`); all of those serialize to JSON `null`, and they propagate
  absorbingly through the arithmetic the server performs, so merging them
  loses nothing observable.  IEEE rounding/overflow of finite values is
  idealized away (exact rational arithmetic).
* `process.env` variables are `Option String` (`none` = unset); JS
  truthiness of such a value is `envTruthy` (unset or `""` are falsy).
* The upstream `fetch` to OpenAI is an oracle value `ProviderResponse`
  supplied to the model; route handlers are functions of the environment,
  the parsed request and that oracle.
-/

/-- JS whitespace (ECMAScript `WhiteSpace` ∪ `LineTerminator`), the set
trimmed by `String.prototype.trim` and by `Number()` string coercion. -/
def isJsWS (c : Char) : Bool :=
  c = ' ' || c = '\t' || c = '\n' || c = '\r' || c = '\x0b' || c = '\x0c' ||
  c = '\u00A0' || c = '\u1680' || ('\u2000' ≤ c && c ≤ '\u200A') ||
  c = '\u2028' || c = '\u2029' || c = '\u202F' || c = '\u205F' ||
  c = '\u3000' || c = '\uFEFF'

/-- JS `String.prototype.trim`: drop leading and trailing whitespace. -/
def trimWS (l : List Char) : List Char :=
  ((l.dropWhile isJsWS).reverse.dropWhile isJsWS).reverse

/-- Prepend a character to the first piece of a split-in-progress. -/
def cons1 (c : Char) : List (List Char) → List (List Char)
  | [] => [[c]]
  | p :: ps => (c :: p) :: ps

/-- JS `str.split(/\r?\n/)`: split on every `"\n"` or `"\r\n"` occurrence
(leftmost-greedy, exactly the regex's behaviour); a `'\r'` not followed by
`'\n'` is ordinary text. -/
def splitRN : List Char → List (List Char)
  | [] => [[]]
  | '\n' :: rest => [] :: splitRN rest
  | '\r' :: '\n' :: rest => [] :: splitRN rest
  | c :: rest => cons1 c (splitRN rest)

/-- The line-parsing step shared by the three generation handlers
(`server.js` lines 68, 78, 88):
`out.split(/\r?\n/).map(l => l.trim()).filter(Boolean).slice(0, limit)`. -/
def parseLines (raw : String) (limit : Nat) : List String :=
  ((((splitRN raw.data).map (fun cs => String.mk (trimWS cs))).filter
      (fun t => t ≠ "")).take limit)

theorem mem_trimWS {c : Char} {l : List Char} (h : c ∈ trimWS l) : c ∈ l := by
  have h1 : List.Sublist ((l.dropWhile isJsWS).reverse.dropWhile isJsWS)
      (l.dropWhile isJsWS).reverse := List.dropWhile_sublist _
  have h2 := h1.reverse
  rw [List.reverse_reverse] at h2
  exact (h2.trans (List.dropWhile_sublist _)).mem h

theorem trimWS_has_nonws {l : List Char} (h : trimWS l ≠ []) :
    ∃ c ∈ trimWS l, isJsWS c = false := by
  unfold trimWS at *
  set m := (l.dropWhile isJsWS).reverse.dropWhile isJsWS with hm
  have hmne : m ≠ [] := by
    intro hcon
    rw [hcon] at h
    exact h rfl
  refine ⟨m.head hmne, ?_, ?_⟩
  · rw [List.mem_reverse]
    exact List.head_mem hmne
  · exact List.head_dropWhile_not isJsWS _ hmne

theorem cons1_no_nl {c : Char} (hc : ¬ c = '\n') {L : List (List Char)}
    (hL : ∀ p ∈ L, '\n' ∉ p) : ∀ q ∈ cons1 c L, '\n' ∉ q := by
  cases L with
  | nil =>
    intro q hq
    simp only [cons1, List.mem_singleton] at hq
    subst hq
    intro hn
    rcases List.mem_singleton.mp hn with h
    exact hc h.symm
  | cons p ps =>
    intro q hq
    simp only [cons1, List.mem_cons] at hq
    rcases hq with rfl | hq
    · intro hn
      rcases List.mem_cons.mp hn with h | h
      · exact hc h.symm
      · exact hL p (by simp) h
    · exact hL q (by simp [hq])

theorem splitRN_no_nl : ∀ (l : List Char), ∀ p ∈ splitRN l, '\n' ∉ p := by
  intro l
  induction l using splitRN.induct with
  | case1 => simp [splitRN]
  | case2 rest ih =>
    intro p hp
    simp only [splitRN, List.mem_cons] at hp
    rcases hp with rfl | hp
    · simp
    · exact ih p hp
  | case3 rest ih =>
    intro p hp
    simp only [splitRN, List.mem_cons] at hp
    rcases hp with rfl | hp
    · simp
    · exact ih p hp
  | case4 c rest h1 h2 ih =>
    have hc : ¬ c = '\n' := fun h => h1 h
    intro p hp
    simp only [splitRN] at hp
    exact cons1_no_nl hc ih p hp

/-! ## JS numbers and JSON values -/

/-- A JS number: an exact rational for a finite double, plus one sentinel
`nan` merging every non-finite double (`NaN`, `±Infinity`).  All
non-finite doubles serialize to JSON `null` and propagate absorbingly
through the arithmetic this server performs, so the merge loses nothing
observable.  Finite arithmetic is exact (IEEE rounding idealized away). -/
inductive JsNum where
  | nan
  | fin (q : ℚ)
deriving DecidableEq

/-- JS multiplication (a non-finite operand is absorbing). -/
def jsMul : JsNum → JsNum → JsNum
  | .fin a, .fin b => .fin (a * b)
  | _, _ => .nan

/-- JS division; division by zero yields a non-finite double. -/
def jsDiv : JsNum → JsNum → JsNum
  | .fin a, .fin b => if b = 0 then .nan else .fin (a / b)
  | _, _ => .nan

/-- JS unary minus. -/
def jsNeg : JsNum → JsNum
  | .fin q => .fin (-q)
  | .nan => .nan

/-- Value of one digit character in the given base, if it is one.  Code
points: digits are 48–57, lowercase hex letters 97–102 (value = code −
87), uppercase hex letters 65–70 (value = code − 55). -/
def digitVal (base : Nat) (c : Char) : Option Nat :=
  let n := c.toNat
  let v : Option Nat :=
    if 48 ≤ n ∧ n ≤ 57 then some (n - 48)
    else if 97 ≤ n ∧ n ≤ 102 then some (n - 87)
    else if 65 ≤ n ∧ n ≤ 70 then some (n - 55)
    else none
  v.bind (fun d => if d < base then some d else none)

/-- Fold a digit string in the given base; value and digit count. -/
def parseDigits (base : Nat) (cs : List Char) : Option (Nat × Nat) :=
  cs.foldl
    (fun acc c =>
      acc.bind (fun vn => (digitVal base c).map (fun d => (vn.1 * base + d, vn.2 + 1))))
    (some (0, 0))

/-- Split a character list at the first `'e'`/`'E'` (exponent marker). -/
def splitAtExp : List Char → List Char × Option (List Char)
  | [] => ([], none)
  | c :: rest =>
    if c = 'e' || c = 'E' then ([], some rest)
    else
      let me := splitAtExp rest
      (c :: me.1, me.2)

/-- Split a character list at the first `'.'`. -/
def splitAtDot : List Char → List Char × Option (List Char)
  | [] => ([], none)
  | c :: rest =>
    if c = '.' then ([], some rest)
    else
      let md := splitAtDot rest
      (c :: md.1, md.2)

/-- ECMAScript `StrUnsignedDecimalLiteral`: `Infinity` (a non-finite
double, merged into the sentinel), or decimal digits with optional
fraction and optional exponent. -/
def parseUnsignedDec (cs : List Char) : JsNum :=
  if cs = "Infinity".data then .nan
  else
    let se := splitAtExp cs
    let expVal : Option Int :=
      match se.2 with
      | none => some 0
      | some ec =>
        match ec with
        | '+' :: r => (parseDigits 10 r).bind
            (fun vn => if vn.2 = 0 then none else some (vn.1 : Int))
        | '-' :: r => (parseDigits 10 r).bind
            (fun vn => if vn.2 = 0 then none else some (-(vn.1 : Int)))
        | r => (parseDigits 10 r).bind
            (fun vn => if vn.2 = 0 then none else some (vn.1 : Int))
    let mantVal : Option ℚ :=
      match splitAtDot se.1 with
      | (ip, none) =>
        (parseDigits 10 ip).bind (fun vn => if vn.2 = 0 then none else some (vn.1 : ℚ))
      | (ip, some fp) =>
        (parseDigits 10 ip).bind (fun ivn =>
          (parseDigits 10 fp).bind (fun fvn =>
            if ivn.2 = 0 && fvn.2 = 0 then none
            else some ((ivn.1 : ℚ) + (fvn.1 : ℚ) / (10 : ℚ) ^ fvn.2)))
    match mantVal, expVal with
    | some m, some e => .fin (m * (10 : ℚ) ^ e)
    | _, _ => .nan

/-- An unsigned non-decimal integer literal body (after `0x`/`0o`/`0b`). -/
def parseNonDec (base : Nat) (r : List Char) : JsNum :=
  match parseDigits base r with
  | some (v, n) => if n = 0 then .nan else .fin (v : ℚ)
  | none => .nan

/-- ECMAScript `StrDecimalLiteral`: optional sign, then an unsigned decimal literal. -/
def parseSignedDec : List Char → JsNum
  | '+' :: r => parseUnsignedDec r
  | '-' :: r => jsNeg (parseUnsignedDec r)
  | r => parseUnsignedDec r

/-- ECMAScript `StringToNumber`, the `Number()` coercion of a string:
trim JS whitespace; empty means 0; an unsigned hex/octal/binary literal;
otherwise a signed decimal literal or `Infinity`; anything else `NaN`. -/
def jsStrToNumber (s : String) : JsNum :=
  let t := trimWS s.data
  match t with
  | [] => .fin 0
  | '0' :: x :: r =>
    if x = 'x' || x = 'X' then parseNonDec 16 r
    else if x = 'o' || x = 'O' then parseNonDec 8 r
    else if x = 'b' || x = 'B' then parseNonDec 2 r
    else parseSignedDec t
  | _ => parseSignedDec t

/-- A JSON value: what `express.json()` hands to a handler as `req.body`
and what `res.json(...)` serializes back out. -/
inductive JVal where
  | jstr (s : String)
  | jnum (q : ℚ)
  | jbool (b : Bool)
  | jnull
  | jarr (items : List JVal)
  | jobj (entries : List (String × JVal))

/-- Rendering of a JS number as a string.  Exact for integral values; a
non-integral rational is rendered as `num/den` (JS prints a shortest
round-trip decimal instead, and non-finite doubles print `NaN` or
`±Infinity`).  No theorem in this file depends on this rendering beyond
the fact that a non-integral value never prints as a bare digit. -/
def jsNumToString : JsNum → String
  | .nan => "NaN"
  | .fin q =>
    if q.den = 1 then toString q.num
    else toString q.num ++ "/" ++ toString q.den

mutual

/-- JS `String()` coercion (template-literal interpolation and
`ToPropertyKey`) of a JSON value. -/
def jsTemplateString : JVal → String
  | .jnull => "null"
  | .jbool true => "true"
  | .jbool false => "false"
  | .jnum q => jsNumToString (.fin q)
  | .jstr s => s
  | .jobj _ => "[object Object]"
  | .jarr l => jsArrJoin l

/-- The JS `Array.prototype.toString`: elements rendered by `String()` (with
`null` rendering as the empty string), joined by `","`. -/
def jsArrJoin : List JVal → String
  | [] => ""
  | [v] =>
    (match v with
     | .jnull => ""
     | w => jsTemplateString w)
  | v :: vs =>
    (match v with
     | .jnull => ""
     | w => jsTemplateString w) ++ "," ++ jsArrJoin vs

end

/-- JS `Number()` coercion of a JSON value.  An array converts through
its `toString` join; `[]` gives `""` (0), a longer array's string always
contains a comma (`NaN`); a plain object stringifies to
`"[object Object]"` (`NaN`). -/
def toNumber : JVal → JsNum
  | .jnull => .fin 0
  | .jbool b => .fin (if b then 1 else 0)
  | .jnum q => .fin q
  | .jstr s => jsStrToNumber s
  | .jobj _ => .nan
  | .jarr l => jsStrToNumber (String.mk (jsArrJoin l).data)

mutual

/-- The spec's response invariant: only strings and numbers at the
leaves, combined by arrays (and objects). -/
def goodJson : JVal → Bool
  | .jnull => false
  | .jbool _ => false
  | .jnum _ => true
  | .jstr _ => true
  | .jarr l => goodJsonList l
  | .jobj fs => goodJsonFields fs

def goodJsonList : List JVal → Bool
  | [] => true
  | v :: vs => goodJson v && goodJsonList vs

def goodJsonFields : List (String × JVal) → Bool
  | [] => true
  | (_, v) :: fs => goodJson v && goodJsonFields fs

end

/-- How `JSON.stringify` (inside `res.json`) serializes a computed JS
number: a non-finite double becomes JSON `null`. -/
def ofNum : JsNum → JVal
  | .nan => .jnull
  | .fin q => .jnum q

/-! ## The server (`server.js`) -/

/-- JS truthiness of an optional environment/header string value:
`undefined` and `""` are falsy, every other string is truthy. -/
def envTruthy : Option String → Bool
  | none => false
  | some s => s ≠ ""

/-- The process environment the server reads.  `PORT` is omitted: it does
not affect any per-request behaviour. -/
structure Env where
  allowedOrigins : Option String
  clientApiKey : Option String
  openaiApiKey : Option String

/-- JS `str.split(",")`: split on every comma. -/
def splitComma : List Char → List (List Char)
  | [] => [[]]
  | ',' :: rest => [] :: splitComma rest
  | c :: rest => cons1 c (splitComma rest)

/-- Line 11 of `server.js`, `const allowed = process.env.ALLOWED_ORIGINS ?
ALLOWED_ORIGINS.split(",").map(s => s.trim()) : null`.  The guard is JS
truthiness, so an empty string also yields `null`. -/
def parseAllowed (v : Option String) : Option (List String) :=
  match v with
  | none => none
  | some s =>
    if s = "" then none
    else some ((splitComma s.data).map (fun t => String.mk (trimWS t)))

/-- A response body: `res.send("OK")` plain text, or `res.json(v)`. -/
inductive ResBody where
  | text (s : String)
  | json (v : JVal)

/-- An HTTP response as a handler produces it. -/
structure HttpResponse where
  status : Nat
  body : ResBody

/-- The CORS origin callback (`server.js` lines 13–17): `allowed` is the
parsed allow-list (or `null`), `origin` the request's origin header (or
`undefined`); result `none` = allow, `some e` = reject with
`Error("CORS not allowed")`.  `!origin` is JS truthiness, so an *empty*
origin header is also unconditionally allowed. -/
def corsGate (allowed : Option (List String)) (origin : Option String) : Option String :=
  match allowed with
  | none => none
  | some l =>
    match origin with
    | none => none
    | some o =>
      if o = "" then none
      else if l.contains o then none
      else some "CORS not allowed"

/-- The 401 response of the auth middleware (`server.js` line 27). -/
def auth401 : HttpResponse :=
  ⟨401, .json (.jobj [("error", .jstr "Missing or invalid x-api-key header")])⟩

/-- The shared-secret middleware (`server.js` lines 21–30): `clientKey`
is `process.env.CLIENT_API_KEY`, `incoming` the `x-api-key` request
header; `none` means `next()` (pass), `some r` means the middleware
responded with `r` and the chain stops. -/
def authGate (clientKey incoming : Option String) : Option HttpResponse :=
  if envTruthy clientKey = false then none
  else if envTruthy incoming = false ∨ incoming ≠ clientKey then some auth401
  else none

/-- The upstream `fetch` outcome, as an oracle: `resp.ok`, the numeric
`resp.status`, the response body text, and the optional
`choices?.[0]?.message?.content` chain of the parsed JSON (`none` when
any link is missing). -/
structure ProviderResponse where
  ok : Bool
  status : Nat
  bodyText : String
  content? : Option String

/-- The helper `callOpenAI(prompt, maxTokens)` (`server.js` lines 33–59) as a
function of the credential, its two arguments and the oracle response;
`Except.error m` models a thrown `Error(m)`.  The prompt and token budget
only shape the upstream request, so they select no branch here.  (The
source declares a default `maxTokens = 150`; every call site passes a
value, so no behaviour in this file depends on it.) -/
def callOpenAI (openaiKey : Option String) (prompt : String) (maxTokens : Nat)
    (r : ProviderResponse) : Except String String :=
  if envTruthy openaiKey = false then .error "OPENAI_API_KEY missing in env"
  else if r.ok = false then
    .error ("OpenAI error " ++ toString r.status ++ ": " ++ r.bodyText)
  else .ok (r.content?.getD "")

/-- HTTP methods used by the server's routes. -/
inductive Method where
  | GET
  | POST
deriving DecidableEq

/-- An inbound request after body parsing: method, path, the `origin`
and `x-api-key` headers (`none` = header absent), and the parsed JSON
body object (`express.json()` yields `\x7b\x7d`, i.e. `[]` here, for an
absent body). -/
structure Request where
  method : Method
  path : String
  origin : Option String
  apiKey : Option String
  body : List (String × JVal)

/-- Destructuring with default, `const \x7b f = d \x7d = req.body`: the
default applies only when the field is absent (`undefined`), not when it
is `null`. -/
def field (body : List (String × JVal)) (k : String) (d : JVal) : JVal :=
  (body.lookup k).getD d

/-- A body field interpolated into a prompt template: absent means the
declared default string, present means `String(value)`. -/
def strOfField (body : List (String × JVal)) (k : String) (d : String) : String :=
  match body.lookup k with
  | none => d
  | some v => jsTemplateString v

/-- The prompt template of `/generate-title` (`server.js` line 66). -/
def promptTitle (body : List (String × JVal)) : String :=
  "Generate 10 short catchy stream titles (max 70 chars). Game: " ++
    strOfField body "game" "" ++ ". Keywords: " ++ strOfField body "keywords" "" ++
    ". Voice: " ++ strOfField body "voice" "friendly" ++ ". Output one per line."

/-- The prompt template of `/generate-name` (`server.js` line 76). -/
def promptName (body : List (String × JVal)) : String :=
  "Generate 15 creative Twitch usernames. Keywords: " ++
    strOfField body "keywords" "" ++ ". Style: " ++ strOfField body "style" "short" ++
    ". One per line."

/-- The prompt template of `/generate-bio` (`server.js` line 86). -/
def promptBio (body : List (String × JVal)) : String :=
  "Write 5 Twitch bio lines with vibe: " ++ strOfField body "vibe" "friendly" ++
    ". Length: " ++ strOfField body "length" "short" ++ ". Output one per line."

/-- Common shape of the three generation route handlers (`server.js`
lines 63–91): await the AI call; on success parse lines and respond
`200` with the capped list under `listKey` plus the raw text; on any
thrown error respond `500` with the error message under `error`. -/
def genHandler (listKey : String) (limit : Nat) (outcome : Except String String) :
    HttpResponse :=
  match outcome with
  | .error m => ⟨500, .json (.jobj [("error", .jstr m)])⟩
  | .ok out =>
    ⟨200, .json (.jobj [(listKey, .jarr ((parseLines out limit).map .jstr)),
                       ("raw", .jstr out)])⟩

/-- The `/generate-title` handler (`server.js` lines 63–71). -/
def generateTitle (openaiKey : Option String) (body : List (String × JVal))
    (r : ProviderResponse) : HttpResponse :=
  genHandler "titles" 10 (callOpenAI openaiKey (promptTitle body) 160 r)

/-- The `/generate-name` handler (`server.js` lines 73–81). -/
def generateName (openaiKey : Option String) (body : List (String × JVal))
    (r : ProviderResponse) : HttpResponse :=
  genHandler "names" 15 (callOpenAI openaiKey (promptName body) 200 r)

/-- The `/generate-bio` handler (`server.js` lines 83–91). -/
def generateBio (openaiKey : Option String) (body : List (String × JVal))
    (r : ProviderResponse) : HttpResponse :=
  genHandler "bios" 5 (callOpenAI openaiKey (promptBio body) 160 r)

/-- Property access `tierRates[tier]` on the literal `\x7b 1: 2.5, 2: 5, 3: 12.5 \x7d`
(`server.js` line 96): the object's property keys are the strings `"1"`,
`"2"`, `"3"`, and the subscript is converted by `ToPropertyKey`, i.e.
`String(tier)`.  For a finite numeric subscript, `String(tier)` is one of
those keys exactly when the value is 1, 2 or 3, which the first branch
encodes directly; every other value is compared through its `String()`
rendering. -/
def tierLookup : JVal → Option ℚ
  | .jnum q =>
    if q = 1 then some (5 / 2)
    else if q = 2 then some 5
    else if q = 3 then some (25 / 2)
    else none
  | v =>
    let key := jsTemplateString v
    if key = "1" then some (5 / 2)
    else if key = "2" then some 5
    else if key = "3" then some (25 / 2)
    else none

/-- The `/calc-subs` handler (`server.js` lines 94–99):
`earnings = Number(subs) * (tierRates[tier] ?? tierRates[1])`, responding
with the coerced `subs`, the *echoed* `tier`, and `earnings`. -/
def calcSubs (body : List (String × JVal)) : HttpResponse :=
  let subs := field body "subs" (.jnum 0)
  let tier := field body "tier" (.jnum 1)
  let earnings := jsMul (toNumber subs) (.fin ((tierLookup tier).getD (5 / 2)))
  ⟨200, .json (.jobj [("subs", ofNum (toNumber subs)), ("tier", tier),
                     ("earnings", ofNum earnings)])⟩

/-- The `/calc-ads` handler (`server.js` lines 101–105):
`earnings = (Number(viewers) / 1000) * Number(cpm) * Number(adMinutes)`. -/
def calcAds (body : List (String × JVal)) : HttpResponse :=
  let adMinutes := field body "adMinutes" (.jnum 0)
  let viewers := field body "viewers" (.jnum 0)
  let cpm := field body "cpm" (.jnum 3)
  let earnings :=
    jsMul (jsMul (jsDiv (toNumber viewers) (.fin 1000)) (toNumber cpm)) (toNumber adMinutes)
  ⟨200, .json (.jobj [("adMinutes", ofNum (toNumber adMinutes)),
                     ("viewers", ofNum (toNumber viewers)),
                     ("cpm", ofNum (toNumber cpm)), ("earnings", ofNum earnings)])⟩

/-- The `/health` handler's response (`server.js` line 108). -/
def healthRes : HttpResponse := ⟨200, .text "OK"⟩

/-- The express router: dispatch on method and path.  Unmatched routes
get express's default 404 (its body shape is irrelevant to every claim). -/
def route (env : Env) (ai : ProviderResponse) (req : Request) : HttpResponse :=
  match req.method, req.path with
  | .GET, "/health" => healthRes
  | .POST, "/generate-title" => generateTitle env.openaiApiKey req.body ai
  | .POST, "/generate-name" => generateName env.openaiApiKey req.body ai
  | .POST, "/generate-bio" => generateBio env.openaiApiKey req.body ai
  | .POST, "/calc-subs" => calcSubs req.body
  | .POST, "/calc-ads" => calcAds req.body
  | _, _ => ⟨404, .text "Not Found"⟩

/-- The whole per-request pipeline (`server.js` lines 8–108), in
middleware registration order: CORS origin gate, then shared-secret
gate, then the router.  `.error e` models the CORS rejection
(`callback(new Error("CORS not allowed"))`: the request receives no
application response). -/
def app (env : Env) (ai : ProviderResponse) (req : Request) : Except String HttpResponse :=
  match corsGate (parseAllowed env.allowedOrigins) req.origin with
  | some e => .error e
  | none =>
    match authGate env.clientApiKey req.apiKey with
    | some resp => .ok resp
    | none => .ok (route env ai req)

/-- The function `subscriptionEarnings` of the spec: the `/calc-subs` computation on
numeric inputs, `Number(subs) * (tierRates[tier] ?? tierRates[1])`. -/
def subscriptionEarnings (subCount tier : ℚ) : ℚ :=
  subCount * ((tierLookup (.jnum tier)).getD (5 / 2))

/-- The function `adEarnings` of the spec: the `/calc-ads` computation on numeric
inputs, `(viewers / 1000) * cpm * adMinutes`. -/
def adEarnings (adMinutes viewers cpm : ℚ) : ℚ :=
  viewers / 1000 * cpm * adMinutes

/-! ## Helper lemmas -/

/-- The spec's response invariant, on a whole response: a JSON body must
contain only strings and numbers at the leaves. -/
def resGood : HttpResponse → Bool
  | ⟨_, .text _⟩ => true
  | ⟨_, .json v⟩ => goodJson v

theorem lookup_mem {l : List (String × JVal)} {k : String} {v : JVal}
    (h : l.lookup k = some v) : (k, v) ∈ l := by
  induction l with
  | nil => simp [List.lookup] at h
  | cons p rest ih =>
    obtain ⟨k', v'⟩ := p
    by_cases hk : (k == k')
    · simp only [List.lookup, hk] at h
      have hkk : k = k' := eq_of_beq hk
      cases h
      exact hkk ▸ List.mem_cons_self _ _
    · simp only [List.lookup, Bool.not_eq_true] at h
      rw [Bool.eq_false_iff.mpr hk] at h
      exact List.mem_cons_of_mem _ (ih h)

theorem goodJsonList_map_str (l : List String) :
    goodJsonList (l.map JVal.jstr) = true := by
  induction l with
  | nil => rfl
  | cons s rest ih => simp [goodJsonList, goodJson, ih]

/-- A body field read with a numeric default is numeric whenever every
field of the body is numeric. -/
theorem field_num {body : List (String × JVal)} (k : String) (d : ℚ)
    (hb : ∀ p ∈ body, ∃ q : ℚ, p.2 = JVal.jnum q) :
    ∃ q : ℚ, field body k (.jnum d) = JVal.jnum q := by
  unfold field
  cases hl : body.lookup k with
  | none => exact ⟨d, rfl⟩
  | some v =>
    obtain ⟨q, hq⟩ := hb (k, v) (lookup_mem hl)
    exact ⟨q, by simpa using hq⟩

/-! ## The claims -/

/-- C1.  Shared-secret gate: with no truthy `CLIENT_API_KEY`, every
request passes the auth middleware regardless of headers; with a
configured (truthy) secret, a missing or differing `x-api-key` header is
answered with status 401 and exactly the JSON body
`\x7b"error": "Missing or invalid x-api-key header"\x7d` — and, whenever
the origin gate passed, that 401 is the whole app's response for every
upstream oracle, so no route handler or AI call runs; a header equal to
the secret passes the gate. -/
theorem C1_auth_gate (ck inc : Option String) (env : Env) (ai : ProviderResponse)
    (req : Request) :
    (envTruthy ck = false → authGate ck inc = none)
    ∧ (∀ k, ck = some k → envTruthy ck = true → inc ≠ some k →
        authGate ck inc = some auth401)
    ∧ (∀ k, ck = some k → inc = some k → authGate ck inc = none)
    ∧ (corsGate (parseAllowed env.allowedOrigins) req.origin = none →
        authGate env.clientApiKey req.apiKey = some auth401 →
        app env ai req = .ok auth401)
    ∧ auth401 =
        ⟨401, .json (.jobj [("error", .jstr "Missing or invalid x-api-key header")])⟩ := by
  refine ⟨?_, ?_, ?_, ?_, rfl⟩
  · intro h
    simp [authGate, h]
  · rintro k rfl ht hne
    have hk : k ≠ "" := by simpa [envTruthy] using ht
    simp only [authGate, envTruthy]
    rw [if_neg (by simp [hk])]
    rw [if_pos (Or.inr (by simpa using hne))]
  · rintro k rfl rfl
    by_cases hk : k = ""
    · subst hk
      simp [authGate, envTruthy]
    · simp [authGate, envTruthy, hk]
  · intro hc ha
    simp [app, hc, ha]

/-- Witness for C1 at concrete inputs: open mode passes, configured
secret with a missing header yields the 401 end to end, matching header
passes. -/
theorem C1_auth_gate_witness :
    authGate none (some "anything") = none
    ∧ authGate (some "s3cret") none = some auth401
    ∧ authGate (some "s3cret") (some "s3cret") = none
    ∧ app ⟨none, some "s3cret", some "k"⟩ ⟨true, 200, "", some "text"⟩
        ⟨.POST, "/generate-title", none, none, []⟩ = .ok auth401 :=
  ⟨(C1_auth_gate none (some "anything") ⟨none, none, none⟩ ⟨true, 200, "", none⟩
      ⟨.GET, "/health", none, none, []⟩).1 rfl,
   (C1_auth_gate (some "s3cret") none ⟨none, none, none⟩ ⟨true, 200, "", none⟩
      ⟨.GET, "/health", none, none, []⟩).2.1 "s3cret" rfl (by decide) (by simp),
   (C1_auth_gate (some "s3cret") (some "s3cret") ⟨none, none, none⟩ ⟨true, 200, "", none⟩
      ⟨.GET, "/health", none, none, []⟩).2.2.1 "s3cret" rfl rfl,
   (C1_auth_gate (some "s3cret") none ⟨none, some "s3cret", some "k"⟩
      ⟨true, 200, "", some "text"⟩ ⟨.POST, "/generate-title", none, none, []⟩).2.2.2.1
     rfl ((C1_auth_gate (some "s3cret") none ⟨none, none, none⟩ ⟨true, 200, "", none⟩
      ⟨.GET, "/health", none, none, []⟩).2.1 "s3cret" rfl (by decide) (by simp))⟩

/-- C2 counterexample.  The claim says `GET /health` answers plain-text
"OK" even when a shared secret is configured and the `x-api-key` header
is missing; but both gate middlewares are registered globally *before*
the route, so that request is answered by the auth middleware with 401
and never reaches the health handler. -/
theorem C2_health_cex :
    app ⟨none, some "secret", none⟩ ⟨true, 200, "", none⟩
        ⟨.GET, "/health", none, none, []⟩ = .ok auth401
    ∧ auth401 ≠ healthRes := by
  constructor
  · rfl
  · intro h
    have := congrArg HttpResponse.status h
    simp [auth401, healthRes] at this

/-- C2 amended.  For every request to `GET /health` that passes the
origin gate and the auth gate (in particular whenever neither
`ALLOWED_ORIGINS` nor `CLIENT_API_KEY` is truthy), the response is the
fixed plain-text 200 "OK", regardless of body, headers and the upstream
oracle. -/
theorem C2_health_amended (env : Env) (ai : ProviderResponse) (req : Request)
    (hm : req.method = .GET) (hp : req.path = "/health")
    (hc : corsGate (parseAllowed env.allowedOrigins) req.origin = none)
    (ha : authGate env.clientApiKey req.apiKey = none) :
    app env ai req = .ok healthRes ∧ healthRes = ⟨200, .text "OK"⟩ := by
  refine ⟨?_, rfl⟩
  simp [app, hc, ha, route, hm, hp]

/-- Witness for the amended C2: with nothing configured, a health request
carrying an arbitrary origin, an arbitrary api key and a junk body still
gets 200 "OK". -/
theorem C2_health_amended_witness :
    app ⟨none, none, none⟩ ⟨false, 500, "down", none⟩
        ⟨.GET, "/health", some "http://anywhere.example", some "whatever",
         [("a", JVal.jnull)]⟩ = .ok healthRes :=
  (C2_health_amended ⟨none, none, none⟩ ⟨false, 500, "down", none⟩
    ⟨.GET, "/health", some "http://anywhere.example", some "whatever",
     [("a", JVal.jnull)]⟩ rfl rfl rfl rfl).1

/-- C3.  The shared line-parsing step: at most `limit` entries; every
entry is nonempty, contains a non-whitespace character (so is not
whitespace-only) and contains no newline; relative order is preserved
(the result is a sublist of the trimmed split pieces); and the spec's
example `parseLines("a\n\nb\r\nc", 2) = ["a","b"]` holds. -/
theorem C3_parseLines (s : String) (limit : Nat) :
    (parseLines s limit).length ≤ limit
    ∧ (∀ t ∈ parseLines s limit,
        t ≠ "" ∧ (∃ c ∈ t.data, isJsWS c = false) ∧ '\n' ∉ t.data)
    ∧ List.Sublist (parseLines s limit)
        ((splitRN s.data).map (fun cs => String.mk (trimWS cs)))
    ∧ parseLines "a\n\nb\r\nc" 2 = ["a", "b"] := by
  refine ⟨List.length_take_le _ _, ?_, ?_, by decide⟩
  · intro t ht
    have ht' := List.mem_of_mem_take ht
    rcases List.mem_filter.mp ht' with ⟨hmem, hneb⟩
    have hne : t ≠ "" := of_decide_eq_true hneb
    rcases List.mem_map.mp hmem with ⟨cs, hcs, rfl⟩
    have hdata : (String.mk (trimWS cs)).data = trimWS cs := rfl
    have htrim_ne : trimWS cs ≠ [] := by
      intro hnil
      exact hne (by rw [show trimWS cs = [] from hnil])
    refine ⟨hne, ?_, ?_⟩
    · rw [hdata]
      exact trimWS_has_nonws htrim_ne
    · rw [hdata]
      intro hnl
      exact splitRN_no_nl s.data cs hcs (mem_trimWS hnl)
  · exact (List.take_sublist _ _).trans (List.filter_sublist _)

/-- Witness for C3: the entry "a" of the example parse is nonempty, has a
non-whitespace character and no newline. -/
theorem C3_parseLines_witness :
    "a" ≠ "" ∧ (∃ c ∈ "a".data, isJsWS c = false) ∧ '\n' ∉ "a".data :=
  (C3_parseLines "a\n\nb\r\nc" 2).2.1 "a" (by decide)

/-- C4.  The `/calc-subs` computation: earnings are the subscriber count
times the rate from the fixed three-entry table (tier 1 ↦ 2.5,
tier 2 ↦ 5, tier 3 ↦ 12.5), every unrecognized tier falling back to
tier 1's rate; the spec's two examples hold, and on a numeric body the
handler's `earnings` field is exactly this function's value. -/
theorem C4_subscriptionEarnings (subCount tier : ℚ) :
    subscriptionEarnings subCount 1 = subCount * (5 / 2)
    ∧ subscriptionEarnings subCount 2 = subCount * 5
    ∧ subscriptionEarnings subCount 3 = subCount * (25 / 2)
    ∧ (tier ≠ 1 → tier ≠ 2 → tier ≠ 3 →
        subscriptionEarnings subCount tier = subCount * (5 / 2))
    ∧ subscriptionEarnings 100 2 = 500
    ∧ subscriptionEarnings 100 99 = 250
    ∧ calcSubs [("subs", .jnum subCount), ("tier", .jnum tier)] =
        ⟨200, .json (.jobj [("subs", .jnum subCount), ("tier", .jnum tier),
                           ("earnings", .jnum (subscriptionEarnings subCount tier))])⟩ := by
  refine ⟨?_, ?_, ?_, ?_, ?_, ?_, ?_⟩
  · norm_num [subscriptionEarnings, tierLookup]
  · norm_num [subscriptionEarnings, tierLookup]
  · norm_num [subscriptionEarnings, tierLookup]
  · intro h1 h2 h3
    simp [subscriptionEarnings, tierLookup, h1, h2, h3]
  · norm_num [subscriptionEarnings, tierLookup]
  · norm_num [subscriptionEarnings, tierLookup]
  · simp [calcSubs, field, List.lookup, subscriptionEarnings, toNumber, jsMul, ofNum]

/-- Witness for C4: tier 99 is unrecognized, so subscriberEarnings falls
back to the tier-1 rate. -/
theorem C4_subscriptionEarnings_witness :
    subscriptionEarnings 100 99 = 100 * (5 / 2) :=
  (C4_subscriptionEarnings 100 99).2.2.2.1 (by norm_num) (by norm_num) (by norm_num)

/-- C5.  The `/calc-ads` computation: earnings are
`(viewers / 1000) * cpm * adMinutes`; the spec's example
`adEarnings(10, 5000, 3) = 150` holds; and on a numeric body the handler
computes exactly this function, with the `cpm` field defaulting to 3
when absent. -/
theorem C5_adEarnings (a v c : ℚ) :
    adEarnings a v c = v / 1000 * c * a
    ∧ adEarnings 10 5000 3 = 150
    ∧ calcAds [("adMinutes", .jnum a), ("viewers", .jnum v)] =
        ⟨200, .json (.jobj [("adMinutes", .jnum a), ("viewers", .jnum v), ("cpm", .jnum 3),
                           ("earnings", .jnum (adEarnings a v 3))])⟩
    ∧ calcAds [("adMinutes", .jnum a), ("viewers", .jnum v), ("cpm", .jnum c)] =
        ⟨200, .json (.jobj [("adMinutes", .jnum a), ("viewers", .jnum v), ("cpm", .jnum c),
                           ("earnings", .jnum (adEarnings a v c))])⟩ := by
  have h1000 : ((1000 : ℚ) = 0) = False := by norm_num
  refine ⟨rfl, by norm_num [adEarnings], ?_, ?_⟩
  · simp [calcAds, field, List.lookup, adEarnings, toNumber, jsMul, jsDiv, ofNum, h1000]
  · simp [calcAds, field, List.lookup, adEarnings, toNumber, jsMul, jsDiv, ofNum, h1000]

/-- C6 counterexample.  The claim's iff fails for an *empty* origin
header: the callback's `!origin` test is JS truthiness, so with the
configured allow-list `["http://a.com"]` a request carrying the origin
header `""` — which is not a member of the list — is nevertheless
allowed. -/
theorem C6_cors_cex :
    corsGate (some ["http://a.com"]) (some "") = none
    ∧ "" ∉ ["http://a.com"] := by
  exact ⟨rfl, by decide⟩

/-- C6 amended.  A request with no origin header is always allowed; with
no configured allow-list everything is allowed; a request with a
*non-empty* origin header is allowed iff the origin is a member of the
configured list, and otherwise fails with the `"CORS not allowed"`
rejection; an empty origin header is always allowed (JS truthiness of
`!origin`); and when the gate rejects, the app yields that error and no
application response. -/
theorem C6_cors_amended (l : List String) (o : String) (origin : Option String)
    (env : Env) (ai : ProviderResponse) (req : Request) (e : String) :
    corsGate none origin = none
    ∧ corsGate (some l) none = none
    ∧ corsGate (some l) (some "") = none
    ∧ (o ≠ "" → (corsGate (some l) (some o) = none ↔ o ∈ l))
    ∧ (o ≠ "" → o ∉ l → corsGate (some l) (some o) = some "CORS not allowed")
    ∧ (corsGate (parseAllowed env.allowedOrigins) req.origin = some e →
        app env ai req = .error e) := by
  refine ⟨rfl, rfl, rfl, ?_, ?_, ?_⟩
  · intro ho
    constructor
    · intro h
      simp only [corsGate, if_neg ho] at h
      by_cases hm : l.contains o
      · exact List.elem_iff.mp hm
      · rw [if_neg (by simpa using hm)] at h
        exact absurd h (by simp)
    · intro h
      simp [corsGate, if_neg ho, h]
  · intro ho hm
    simp only [corsGate, if_neg ho]
    rw [if_neg (by simpa using fun hc => hm (List.elem_iff.mp hc))]
  · intro h
    simp [app, h]

/-- Witness for the amended C6: a concrete non-member, non-empty origin
is rejected and the app yields the CORS error; a concrete member origin
passes. -/
theorem C6_cors_amended_witness :
    corsGate (some ["http://a.com"]) (some "http://b.com") = some "CORS not allowed"
    ∧ corsGate (some ["http://a.com"]) (some "http://a.com") = none
    ∧ app ⟨some "http://a.com", none, none⟩ ⟨true, 200, "", none⟩
        ⟨.POST, "/calc-subs", some "http://b.com", none, []⟩ = .error "CORS not allowed" :=
  ⟨(C6_cors_amended ["http://a.com"] "http://b.com" none ⟨none, none, none⟩
      ⟨true, 200, "", none⟩ ⟨.GET, "/health", none, none, []⟩ "").2.2.2.2.1
      (by decide) (by decide),
   (C6_cors_amended ["http://a.com"] "http://a.com" none ⟨none, none, none⟩
      ⟨true, 200, "", none⟩ ⟨.GET, "/health", none, none, []⟩ "").2.2.2.1
      (by decide) |>.mpr (by decide),
   (C6_cors_amended ["http://a.com"] "http://b.com" none
      ⟨some "http://a.com", none, none⟩ ⟨true, 200, "", none⟩
      ⟨.POST, "/calc-subs", some "http://b.com", none, []⟩ "CORS not allowed").2.2.2.2.2
      (by decide)⟩

/-- C7.  `callOpenAI`: throws the configuration error when no truthy
`OPENAI_API_KEY` is present; on a non-success provider status throws an
error whose message embeds the status and the response body text; on
success returns the first choice's message content, and the empty string
when that optional chain is missing — never an error for a well-formed
but empty response. -/
theorem C7_callOpenAI (key : Option String) (prompt : String) (maxTokens : Nat)
    (r : ProviderResponse) :
    (envTruthy key = false →
      callOpenAI key prompt maxTokens r = .error "OPENAI_API_KEY missing in env")
    ∧ (envTruthy key = true → r.ok = false →
      callOpenAI key prompt maxTokens r =
        .error ("OpenAI error " ++ toString r.status ++ ": " ++ r.bodyText))
    ∧ (envTruthy key = true → r.ok = true →
      callOpenAI key prompt maxTokens r = .ok (r.content?.getD ""))
    ∧ (envTruthy key = true → r.ok = true → r.content? = none →
      callOpenAI key prompt maxTokens r = .ok "") := by
  refine ⟨?_, ?_, ?_, ?_⟩
  · intro h
    simp [callOpenAI, h]
  · intro h hok
    simp [callOpenAI, h, hok]
  · intro h hok
    simp [callOpenAI, h, hok]
  · intro h hok hc
    simp [callOpenAI, h, hok, hc]

/-- Witness for C7 at concrete inputs: missing credential, provider 503,
and a success response with the content chain missing. -/
theorem C7_callOpenAI_witness :
    callOpenAI none "p" 150 ⟨true, 200, "", some "x"⟩ =
      .error "OPENAI_API_KEY missing in env"
    ∧ callOpenAI (some "sk-1") "p" 160 ⟨false, 503, "busy", none⟩ =
      .error "OpenAI error 503: busy"
    ∧ callOpenAI (some "sk-1") "p" 160 ⟨true, 200, "ok", none⟩ = .ok "" :=
  ⟨(C7_callOpenAI none "p" 150 ⟨true, 200, "", some "x"⟩).1 rfl,
   (C7_callOpenAI (some "sk-1") "p" 160 ⟨false, 503, "busy", none⟩).2.1 (by decide) rfl,
   (C7_callOpenAI (some "sk-1") "p" 160 ⟨true, 200, "ok", none⟩).2.2.2 (by decide) rfl rfl⟩

/-- C8.  Every generation endpoint converts any error of the AI client —
including the missing-credential configuration error — into exactly a
500 response with JSON body `\x7b"error": <message>\x7d`; the handlers
are total functions of one AI outcome (nothing is retried, nothing
escapes the handler), and a successful outcome yields the normal 200
response. -/
theorem C8_gen_error (key : Option String) (body : List (String × JVal))
    (r : ProviderResponse) (m : String) :
    (callOpenAI key (promptTitle body) 160 r = .error m →
      generateTitle key body r = ⟨500, .json (.jobj [("error", .jstr m)])⟩)
    ∧ (callOpenAI key (promptName body) 200 r = .error m →
      generateName key body r = ⟨500, .json (.jobj [("error", .jstr m)])⟩)
    ∧ (callOpenAI key (promptBio body) 160 r = .error m →
      generateBio key body r = ⟨500, .json (.jobj [("error", .jstr m)])⟩)
    ∧ (envTruthy key = false →
      generateTitle key body r =
        ⟨500, .json (.jobj [("error", .jstr "OPENAI_API_KEY missing in env")])⟩)
    ∧ (∀ out, callOpenAI key (promptTitle body) 160 r = .ok out →
      generateTitle key body r =
        ⟨200, .json (.jobj [("titles", .jarr ((parseLines out 10).map .jstr)),
                           ("raw", .jstr out)])⟩) := by
  refine ⟨?_, ?_, ?_, ?_, ?_⟩
  · intro h
    simp [generateTitle, genHandler, h]
  · intro h
    simp [generateName, genHandler, h]
  · intro h
    simp [generateBio, genHandler, h]
  · intro h
    simp [generateTitle, genHandler, callOpenAI, h]
  · intro out h
    simp [generateTitle, genHandler, h]

/-- Witness for C8: with no credential the title endpoint answers the
500 configuration error; with a provider failure the name endpoint
answers the 500 embedded-status error; with a successful oracle the
title endpoint answers 200. -/
theorem C8_gen_error_witness :
    generateTitle none [] ⟨true, 200, "", some "x"⟩ =
      ⟨500, .json (.jobj [("error", .jstr "OPENAI_API_KEY missing in env")])⟩
    ∧ generateName (some "sk-1") [] ⟨false, 503, "busy", none⟩ =
      ⟨500, .json (.jobj [("error", .jstr "OpenAI error 503: busy")])⟩
    ∧ generateTitle (some "sk-1") [] ⟨true, 200, "", some "A\nB"⟩ =
      ⟨200, .json (.jobj [("titles", .jarr [.jstr "A", .jstr "B"]),
                         ("raw", .jstr "A\nB")])⟩ :=
  ⟨(C8_gen_error none [] ⟨true, 200, "", some "x"⟩ "").2.2.2.1 rfl,
   (C8_gen_error (some "sk-1") [] ⟨false, 503, "busy", none⟩
      "OpenAI error 503: busy").2.1 rfl,
   by
    have h := (C8_gen_error (some "sk-1") [] ⟨true, 200, "", some "A\nB"⟩ "").2.2.2.2
      "A\nB" rfl
    have hp : parseLines "A\nB" 10 = ["A", "B"] := by decide
    rw [h, hp]
    rfl⟩

/-- C9 counterexample.  The invariant "every outbound JSON response
contains only strings, numbers and arrays thereof" fails:
POST /calc-subs with body `\x7b"tier": null\x7d` echoes `tier` verbatim,
so the response object contains `null`. -/
theorem C9_response_cex :
    resGood (calcSubs [("tier", JVal.jnull)]) = false
    ∧ field [("tier", JVal.jnull)] "tier" (.jnum 1) = JVal.jnull := ⟨rfl, rfl⟩

/-- C9 amended.  Every generation-endpoint response and the health
response satisfy the invariant unconditionally, and the calculator
responses satisfy it provided every field of the request body is a
(finite) number; with malformed input the invariant can fail, because a
coerced `NaN` serializes as `null` and `/calc-subs` echoes the `tier`
field verbatim. -/
theorem C9_responses_good (bodyS bodyA body1 body2 body3 : List (String × JVal))
    (key : Option String) (r : ProviderResponse)
    (hS : ∀ p ∈ bodyS, ∃ q : ℚ, p.2 = JVal.jnum q)
    (hA : ∀ p ∈ bodyA, ∃ q : ℚ, p.2 = JVal.jnum q) :
    resGood (calcSubs bodyS) = true
    ∧ resGood (calcAds bodyA) = true
    ∧ resGood (generateTitle key body1 r) = true
    ∧ resGood (generateName key body2 r) = true
    ∧ resGood (generateBio key body3 r) = true
    ∧ resGood healthRes = true := by
  have h1000 : ((1000 : ℚ) = 0) = False := by norm_num
  refine ⟨?_, ?_, ?_, ?_, ?_, rfl⟩
  · obtain ⟨qs, hqs⟩ := field_num "subs" 0 hS
    obtain ⟨qt, hqt⟩ := field_num "tier" 1 hS
    simp [calcSubs, resGood, hqs, hqt, toNumber, jsMul, ofNum, goodJson, goodJsonFields]
  · obtain ⟨qm, hqm⟩ := field_num "adMinutes" 0 hA
    obtain ⟨qv, hqv⟩ := field_num "viewers" 0 hA
    obtain ⟨qc, hqc⟩ := field_num "cpm" 3 hA
    simp [calcAds, resGood, hqm, hqv, hqc, toNumber, jsMul, jsDiv, ofNum, h1000,
      goodJson, goodJsonFields]
  · cases h : callOpenAI key (promptTitle body1) 160 r with
    | error m => simp [generateTitle, genHandler, h, resGood, goodJson, goodJsonFields]
    | ok out =>
      simp [generateTitle, genHandler, h, resGood, goodJson, goodJsonFields,
        goodJsonList_map_str]
  · cases h : callOpenAI key (promptName body2) 200 r with
    | error m => simp [generateName, genHandler, h, resGood, goodJson, goodJsonFields]
    | ok out =>
      simp [generateName, genHandler, h, resGood, goodJson, goodJsonFields,
        goodJsonList_map_str]
  · cases h : callOpenAI key (promptBio body3) 160 r with
    | error m => simp [generateBio, genHandler, h, resGood, goodJson, goodJsonFields]
    | ok out =>
      simp [generateBio, genHandler, h, resGood, goodJson, goodJsonFields,
        goodJsonList_map_str]

/-- Witness for the amended C9 on concrete inputs: a numeric calc body,
an absent calc body and a generation response all satisfy the
invariant. -/
theorem C9_responses_good_witness :
    resGood (calcSubs [("subs", JVal.jnum 100), ("tier", JVal.jnum 2)]) = true
    ∧ resGood (calcAds []) = true
    ∧ resGood (generateTitle none [] ⟨true, 200, "", none⟩) = true := by
  have h := C9_responses_good [("subs", JVal.jnum 100), ("tier", JVal.jnum 2)] [] [] [] []
    none ⟨true, 200, "", none⟩
    (by
      rintro p hp
      rcases List.mem_cons.mp hp with rfl | hp2
      · exact ⟨100, rfl⟩
      · rcases List.mem_singleton.mp hp2 with rfl
        exact ⟨2, rfl⟩)
    (by simp)
  exact ⟨h.1, h.2.1, h.2.2.1⟩

/-- C10.  Configuration values set to the empty string behave as absent,
because both reads test JS truthiness: an empty `CLIENT_API_KEY`
disables the shared-secret gate entirely, and an empty `ALLOWED_ORIGINS`
parses to the unrestricted sentinel — not to an allow-list containing
only the empty origin — so every origin passes. -/
theorem C10_empty_config (inc origin : Option String) :
    authGate (some "") inc = none
    ∧ authGate none inc = none
    ∧ parseAllowed (some "") = none
    ∧ parseAllowed none = none
    ∧ corsGate (parseAllowed (some "")) origin = none
    ∧ parseAllowed (some "") ≠ some [""] := by
  refine ⟨?_, ?_, rfl, rfl, ?_, ?_⟩
  · simp [authGate, envTruthy]
  · simp [authGate, envTruthy]
  · simp [parseAllowed, corsGate]
  · simp [parseAllowed]
